import Mathlib

/-!
Shallow embedding of `images/capi/hack/image-build-ova.py`.

The program packages the output of a Packer build into an OVA archive:
it loads a JSON manifest, stream-optimizes each `.vmdk` file by invoking
`vmware-vdiskmanager`, renders an OVF descriptor by template substitution,
writes a SHA-256 checksum manifest, writes an uncompressed tar archive and a
sidecar checksum of the archive.

Modelling conventions:
* the filesystem is an association list from path to `FileContent`; a write
  prepends, a lookup takes the most recent entry;
* file bytes are `List Nat`; text written in `'w'` mode is kept as a `String`
  together with an abstract encoding `enc : String → Bytes` (UTF-8 in the
  program); a tar archive written by `tarfile` is kept as its member list
  together with an abstract serialization `tarE` of the member list to bytes;
* the SHA-256 hex-digest function of `hashlib` is an abstract parameter
  `H : Bytes → String`; feeding the hash object chunk by chunk is modelled
  explicitly (`readAll`), `hexdigest` applies `H` to the accumulated bytes;
* the external tool `vmware-vdiskmanager` is an abstract parameter
  `conv : Bytes → Option Bytes` from the input file bytes to the produced
  stream-optimized bytes, `none` meaning a non-zero exit status;
* reading `packer-manifest.json` is abstracted as a `ManifestInput`: the
  constructors `missing` and `malformed` stand for `FileNotFoundError` and
  `json.JSONDecodeError` (the spec's ParseError); a parsed document is a
  `BuildManifest`.
-/

/-- File bytes. -/
abbrev Bytes := List Nat

/-- Content of a file on disk: raw bytes, text written in `'w'` mode, or a tar
archive written by `tarfile` (kept as its ordered member list, each member a
path together with the bytes that `tar.add` read from that path). -/
inductive FileContent where
  | bytes (bs : Bytes)
  | text (s : String)
  | tar (members : List (String × Bytes))
deriving DecidableEq

/-- The filesystem: an association list from path to content; the most recent
write is first. -/
abbrev FS := List (String × FileContent)

def fsLookup : FS → String → Option FileContent
  | [], _ => none
  | (k, v) :: rest, p => if p = k then some v else fsLookup rest p

def fsWrite (p : String) (c : FileContent) (fs : FS) : FS := (p, c) :: fs

/-- `os.remove`. -/
def fsRemove (p : String) : FS → FS
  | [] => []
  | (k, v) :: rest => if k = p then fsRemove p rest else (k, v) :: fsRemove p rest

/-- Bytes of a file as read back from disk, given the text encoding `enc` and
the tar serialization `tarE`. -/
def bytesOf (enc : String → Bytes) (tarE : List (String × Bytes) → Bytes) :
    FileContent → Bytes
  | .bytes bs => bs
  | .text s => enc s
  | .tar ms => tarE ms

/-- One entry of `build['files']` in the Packer manifest: a name and a size. -/
structure FileEntry where
  name : String
  size : Nat
deriving DecidableEq

/-- A file entry after `stream_optimize_vmdk_files` set `f['stream_name']` and
`f['stream_size']` on it (the Python code mutates the dict in place). -/
structure ConvertedEntry where
  name : String
  size : Nat
  stream_name : String
  stream_size : Nat
deriving DecidableEq

/-- One entry of `data['builds']`. -/
structure Build where
  name : String
  artifact_id : String
  custom_data : List (String × String)
  files : List FileEntry
deriving DecidableEq

/-- The parsed `packer-manifest.json`. -/
structure BuildManifest where
  builds : List Build
deriving DecidableEq

/-- The manifest file as found on disk: absent, present but not valid JSON, or
parsed. -/
inductive ManifestInput where
  | missing
  | malformed
  | parsed (data : BuildManifest)
deriving DecidableEq

/-- The failure modes of the pipeline, following the spec's error taxonomy:
`parseError` covers a missing or malformed manifest file, `structureError` an
empty `builds` list (`IndexError` on `data['builds'][0]` in the code),
`keyError` a missing dictionary key, `conversionError` a non-zero exit of the
external converter, `indexError` the `vmdk_files[0]` access on an empty list,
`ioError` an unreadable file. -/
inductive PErr where
  | parseError
  | structureError
  | keyError (k : String)
  | conversionError
  | indexError
  | ioError
deriving DecidableEq

/-- Dictionary lookup (`d[k]` returning `none` instead of raising). -/
def lookupKey : List (String × String) → String → Option String
  | [], _ => none
  | (a, b) :: rest, k => if k = a then some b else lookupKey rest k

/-- `d[k]` raising `KeyError` when the key is absent. -/
def getKey (m : List (String × String)) (k : String) : Except PErr String :=
  match lookupKey m k with
  | none => .error (.keyError k)
  | some v => .ok v

/-- `str.endswith`. -/
def pyEndsWith (s suffix : String) : Bool := suffix.data.isSuffixOf s.data

/-- `str.replace(old, new, 1)` for a non-empty `old`: replace the leftmost
occurrence of `old`, or return the string unchanged when there is none. -/
def replaceOnce (old new : List Char) : List Char → List Char
  | [] => []
  | c :: rest =>
    if old.isPrefixOf (c :: rest) then new ++ (c :: rest).drop old.length
    else c :: replaceOnce old new rest

/-- `infile.replace('.vmdk', '.ova.vmdk', 1)`: the destination path of the
stream-optimized copy of a disk file. -/
def destName (s : String) : String :=
  String.mk (replaceOnce (".vmdk").data (".ova.vmdk").data s.data)

/-- The loop body of `get_vmdk_files`, accumulating `outlist`. -/
def get_vmdk_files_loop : List FileEntry → List FileEntry → List FileEntry
  | outlist, [] => outlist
  | outlist, f :: rest =>
    if pyEndsWith f.name (".vmdk") then get_vmdk_files_loop (outlist ++ [f]) rest
    else get_vmdk_files_loop outlist rest

/-- `get_vmdk_files`: select the manifest file entries whose name ends in
`.vmdk`. -/
def get_vmdk_files (inlist : List FileEntry) : List FileEntry :=
  get_vmdk_files_loop [] inlist

/-- The read loop of the `sha256` helper: `f.read(65536)` until empty, feeding
each chunk to `m.update`; the result is the byte sequence the hash object has
accumulated when `hexdigest` is called. -/
def readAll (bs : Bytes) : Bytes :=
  if h : bs = [] then [] else bs.take 65536 ++ readAll (bs.drop 65536)
termination_by bs.length
decreasing_by
  have hpos : 0 < bs.length := List.length_pos.mpr h
  simp [List.length_drop]
  omega

/-- The `sha256` helper of the program: open `path`, feed the file to the hash
object in 65536-byte chunks, return the hex digest (`H` is the abstract
SHA-256 hex-digest function); `none` when the file cannot be opened. -/
def sha256 (enc : String → Bytes) (tarE : List (String × Bytes) → Bytes)
    (H : Bytes → String) (fs : FS) (path : String) : Option String :=
  match fsLookup fs path with
  | none => none
  | some fc => some (H (readAll (bytesOf enc tarE fc)))

/-- `stream_optimize_vmdk_files`: for each file, derive the destination path,
delete a pre-existing file there, invoke the converter on the input file and
record the destination name and its size on the entry.  The filesystem is
threaded through and returned even on failure. -/
def stream_optimize_vmdk_files (enc : String → Bytes)
    (tarE : List (String × Bytes) → Bytes) (conv : Bytes → Option Bytes) :
    List FileEntry → FS → (Except PErr (List ConvertedEntry)) × FS
  | [], fs => (.ok [], fs)
  | f :: rest, fs =>
    let outfile := destName f.name
    let fs1 := match fsLookup fs outfile with
      | some _ => fsRemove outfile fs
      | none => fs
    match fsLookup fs1 f.name with
    | none => (.error (.conversionError), fs1)
    | some fc =>
      match conv (bytesOf enc tarE fc) with
      | none => (.error (.conversionError), fs1)
      | some out =>
        let fs2 := fsWrite outfile (.bytes out) fs1
        match stream_optimize_vmdk_files enc tarE conv rest fs2 with
        | (.error e, fs3) => (.error e, fs3)
        | (.ok restEntries, fs3) =>
          (.ok ({ name := f.name, size := f.size, stream_name := outfile,
                  stream_size := out.length } :: restEntries), fs3)

/-- The placeholder occurrences of `_OVF_TEMPLATE`, in textual order.  The
literal XML/EULA text between the placeholders is elided from the model: no
claim depends on it, only on which placeholders the template requires and on
the order in which `Template.substitute` scans them. -/
def ovfTemplateVars : List String :=
  [("BUILD_NAME"), ("STREAM_DISK_SIZE"), ("POPULATED_DISK_SIZE"),
   ("ARTIFACT_ID"), ("ARTIFACT_ID"), ("OS_NAME"), ("KUBERNETES_SEMVER"),
   ("OS_NAME"), ("KUBERNETES_SEMVER"), ("KUBERNETES_SEMVER"),
   ("KUBERNETES_SEMVER"), ("BUILD_TIMESTAMP"), ("BUILD_DATE"),
   ("CAPI_VERSION"), ("CNI_VERSION"), ("ISO_URL"), ("ISO_CHECKSUM"),
   ("ISO_CHECKSUM_TYPE"), ("KUBERNETES_SEMVER"), ("KUBERNETES_SOURCE_TYPE")]

/-- The scan of `Template.substitute`: look each placeholder up in the mapping,
raising `KeyError` at the first placeholder that has no value. -/
def substituteLoop (data : List (String × String)) :
    List String → Except PErr (List String)
  | [] => .ok []
  | v :: rest =>
    match lookupKey data v with
    | none => .error (.keyError v)
    | some s =>
      match substituteLoop data rest with
      | .error e => .error e
      | .ok others => .ok (s :: others)

/-- `Template(_OVF_TEMPLATE).substitute(data)` (literal segments elided). -/
def substitute (data : List (String × String)) : Except PErr String :=
  match substituteLoop data ovfTemplateVars with
  | .error e => .error e
  | .ok vals => .ok (String.join vals)

/-- The dictionary literal passed to `create_ovf` in `main`, with the values
evaluated in source order; the first `custom_data` key that is absent raises
`KeyError`. -/
def buildOvfData (build : Build) (vmdk : ConvertedEntry) :
    Except PErr (List (String × String)) :=
  match getKey build.custom_data ("build_date") with
  | .error e => .error e
  | .ok build_date =>
  match getKey build.custom_data ("build_timestamp") with
  | .error e => .error e
  | .ok build_timestamp =>
  match getKey build.custom_data ("capi_version") with
  | .error e => .error e
  | .ok capi_version =>
  match getKey build.custom_data ("kubernetes_cni_semver") with
  | .error e => .error e
  | .ok cni_version =>
  match getKey build.custom_data ("os_name") with
  | .error e => .error e
  | .ok os_name =>
  match getKey build.custom_data ("iso_checksum") with
  | .error e => .error e
  | .ok iso_checksum =>
  match getKey build.custom_data ("iso_checksum_type") with
  | .error e => .error e
  | .ok iso_checksum_type =>
  match getKey build.custom_data ("iso_url") with
  | .error e => .error e
  | .ok iso_url =>
  match getKey build.custom_data ("kubernetes_semver") with
  | .error e => .error e
  | .ok kubernetes_semver =>
  match getKey build.custom_data ("kubernetes_source_type") with
  | .error e => .error e
  | .ok kubernetes_source_type =>
  .ok [(("BUILD_DATE"), build_date),
       (("BUILD_NAME"), build.name),
       (("ARTIFACT_ID"), build.artifact_id),
       (("BUILD_TIMESTAMP"), build_timestamp),
       (("CAPI_VERSION"), capi_version),
       (("CNI_VERSION"), cni_version),
       (("OS_NAME"), os_name),
       (("ISO_CHECKSUM"), iso_checksum),
       (("ISO_CHECKSUM_TYPE"), iso_checksum_type),
       (("ISO_URL"), iso_url),
       (("KUBERNETES_SEMVER"), kubernetes_semver),
       (("KUBERNETES_SOURCE_TYPE"), kubernetes_source_type),
       (("POPULATED_DISK_SIZE"), toString vmdk.size),
       (("STREAM_DISK_SIZE"), toString vmdk.stream_size)]

/-- `create_ovf`: open the target in `'w'` mode (creating/truncating it), then
substitute into the template and write the rendered text. -/
def create_ovf (path : String) (data : List (String × String)) (fs : FS) :
    (Except PErr Unit) × FS :=
  let fs1 := fsWrite path (.text ("")) fs
  match substitute data with
  | .error e => (.error e, fs1)
  | .ok rendered => (.ok (), fsWrite path (.text rendered) fs1)

/-- The lines `create_ova_manifest` writes, one `SHA256(path)= digest` line per
input path, in order; `ioError` when an input file cannot be opened. -/
def create_ova_manifest_text (enc : String → Bytes)
    (tarE : List (String × Bytes) → Bytes) (H : Bytes → String) (fs : FS) :
    List String → Except PErr String
  | [] => .ok ("")
  | p :: rest =>
    match sha256 enc tarE H fs p with
    | none => .error (.ioError)
    | some d =>
      match create_ova_manifest_text enc tarE H fs rest with
      | .error e => .error e
      | .ok restText =>
        .ok (("SHA256(") ++ p ++ (")= ") ++ d ++ ("\n") ++ restText)

/-- The `tar.add` loop of `create_ova`: read each input file and collect the
archive members in order; `ioError` when an input file is unreadable. -/
def tarAdds (enc : String → Bytes) (tarE : List (String × Bytes) → Bytes)
    (fs : FS) : List String → Except PErr (List (String × Bytes))
  | [] => .ok []
  | p :: rest =>
    match fsLookup fs p with
    | none => .error (.ioError)
    | some fc =>
      match tarAdds enc tarE fs rest with
      | .error e => .error e
      | .ok ms => .ok ((p, bytesOf enc tarE fc) :: ms)

/-- `create_ova`: open the archive in `'wb'` mode (truncating), add the input
files to the tar in order, then write a sidecar `<path>.sha256` holding the hex
digest of the archive file as read back from disk. -/
def create_ova (enc : String → Bytes) (tarE : List (String × Bytes) → Bytes)
    (H : Bytes → String) (path : String) (infile_paths : List String)
    (fs : FS) : (Except PErr Unit) × FS :=
  let fsA := fsWrite path (.bytes []) fs
  match tarAdds enc tarE fsA infile_paths with
  | .error e => (.error e, fsA)
  | .ok ms =>
    let fsB := fsWrite path (.tar ms) fsA
    let chksum_path := path ++ (".sha256")
    match sha256 enc tarE H fsB path with
    | none => (.error (.ioError), fsB)
    | some d => (.ok (), fsWrite chksum_path (.text d) fsB)

/-- `main`: load the manifest, take the first build, check
`custom_data['kubernetes_semver']` (printed at load time), select and convert
the `.vmdk` files, take the first converted disk, build the OVF data and write
the descriptor, the checksum manifest, the archive and its sidecar.  Returns
the failure (if any) together with the filesystem at that point. -/
def runMain (enc : String → Bytes) (tarE : List (String × Bytes) → Bytes)
    (H : Bytes → String) (conv : Bytes → Option Bytes)
    (inp : ManifestInput) (fs0 : FS) : Option PErr × FS :=
  match inp with
  | .missing => (some (.parseError), fs0)
  | .malformed => (some (.parseError), fs0)
  | .parsed data =>
    match data.builds with
    | [] => (some (.structureError), fs0)
    | build :: _ =>
      match lookupKey build.custom_data ("kubernetes_semver") with
      | none => (some (.keyError ("kubernetes_semver")), fs0)
      | some _ =>
        let vmdk_files := get_vmdk_files build.files
        match stream_optimize_vmdk_files enc tarE conv vmdk_files fs0 with
        | (.error e, fs1) => (some e, fs1)
        | (.ok converted, fs1) =>
          match converted with
          | [] => (some (.indexError), fs1)
          | vmdk :: _ =>
            let ovf := build.name ++ (".ovf")
            match buildOvfData build vmdk with
            | .error e => (some e, fs1)
            | .ok ovfData =>
              match create_ovf ovf ovfData fs1 with
              | (.error e, fs2) => (some e, fs2)
              | (.ok _, fs2) =>
                let ova_manifest := build.name ++ (".mf")
                let fs3 := fsWrite ova_manifest (.text ("")) fs2
                match create_ova_manifest_text enc tarE H fs3
                    [ovf, vmdk.stream_name] with
                | .error e => (some e, fs3)
                | .ok mfText =>
                  let fs4 := fsWrite ova_manifest (.text mfText) fs3
                  let ova := build.name ++ (".ova")
                  match create_ova enc tarE H ova
                      [ovf, ova_manifest, vmdk.stream_name] fs4 with
                  | (.error e, fs5) => (some e, fs5)
                  | (.ok _, fs5) => (none, fs5)

/-! ### Helper lemmas about the filesystem model -/

theorem fsLookup_write_self (p : String) (c : FileContent) (fs : FS) :
    fsLookup (fsWrite p c fs) p = some c := by
  simp [fsLookup, fsWrite]

theorem fsLookup_write_ne (p q : String) (c : FileContent) (fs : FS)
    (h : q ≠ p) : fsLookup (fsWrite p c fs) q = fsLookup fs q := by
  simp [fsLookup, fsWrite, h]

theorem fsLookup_remove_self (p : String) (fs : FS) :
    fsLookup (fsRemove p fs) p = none := by
  induction fs with
  | nil => rfl
  | cons kv rest ih =>
    obtain ⟨k, v⟩ := kv
    by_cases hk : k = p
    · simp [fsRemove, hk, ih]
    · simp [fsRemove, hk, fsLookup, Ne.symm hk, ih]

theorem fsLookup_remove_ne (p q : String) (fs : FS) (h : q ≠ p) :
    fsLookup (fsRemove p fs) q = fsLookup fs q := by
  induction fs with
  | nil => rfl
  | cons kv rest ih =>
    obtain ⟨k, v⟩ := kv
    by_cases hk : k = p
    · subst hk
      simp [fsRemove, fsLookup, h, ih]
    · by_cases hq : q = k
      · subst hq; simp [fsRemove, hk, fsLookup]
      · simp [fsRemove, hk, fsLookup, hq, ih]

/-! ### Helper lemmas about strings -/

theorem strExt {s t : String} (h : s.data = t.data) : s = t := by
  cases s; cases t; exact congrArg String.mk h

theorem strData_append (s t : String) : (s ++ t).data = s.data ++ t.data :=
  String.data_append s t

theorem append_right_ne (s : String) {a b : String} (h : a ≠ b) :
    s ++ a ≠ s ++ b := by
  intro he
  exact h (strExt (List.append_cancel_left
    (by rw [← strData_append, ← strData_append, he])))

theorem str_last_append (s t : String) (h : t.data ≠ []) :
    (s ++ t).data.getLast? = t.data.getLast? := by
  rw [strData_append]
  exact List.getLast?_append_of_ne_nil _ h

theorem ne_of_last {a b : String} (h : a.data.getLast? ≠ b.data.getLast?) :
    a ≠ b := fun he => h (by rw [he])

/-! ### The leftmost occurrence replaced by `replaceOnce` -/

theorem exists_first_occ (old s : List Char) (hold : old ≠ [])
    (h : ∃ i, old.isPrefixOf (s.drop i) = true) :
    ∃ a b, s = a ++ (old ++ b) ∧
      ∀ i < a.length, old.isPrefixOf (s.drop i) = false := by
  classical
  let i0 := Nat.find h
  have hspec : old.isPrefixOf (s.drop i0) = true := Nat.find_spec h
  obtain ⟨b, hb⟩ := List.isPrefixOf_iff_prefix.mp hspec
  have hdrop_ne : s.drop i0 ≠ [] := by
    intro hn
    rw [hn] at hb
    exact hold (List.append_eq_nil.mp hb).1
  have hle : i0 ≤ s.length := by
    by_contra hgt
    exact hdrop_ne (List.drop_eq_nil_of_le (le_of_lt (lt_of_not_le hgt)))
  refine ⟨s.take i0, b, ?_, ?_⟩
  · rw [hb, List.take_append_drop]
  · intro i hi
    have hi0 : i < i0 := by
      have := List.length_take_of_le hle
      omega
    have := Nat.find_min h hi0
    exact Bool.not_eq_true _ ▸ (by simpa using this)

theorem replaceOnce_first (old new : List Char) (hold : old ≠ []) :
    ∀ a b : List Char,
      (∀ i < a.length, old.isPrefixOf ((a ++ (old ++ b)).drop i) = false) →
      replaceOnce old new (a ++ (old ++ b)) = a ++ (new ++ b) := by
  intro a
  induction a with
  | nil =>
    intro b _
    obtain ⟨o, ot, rfl⟩ : ∃ o ot, old = o :: ot := by
      cases old with
      | nil => exact absurd rfl hold
      | cons o ot => exact ⟨o, ot, rfl⟩
    have hpre : (o :: ot).isPrefixOf ((o :: ot) ++ b) = true :=
      List.isPrefixOf_iff_prefix.mpr (List.prefix_append _ _)
    simp only [List.nil_append] at hpre ⊢
    rw [show (o :: ot) ++ b = o :: (ot ++ b) from rfl]
    rw [replaceOnce]
    rw [show o :: (ot ++ b) = (o :: ot) ++ b from rfl]
    rw [if_pos hpre, List.drop_left]
  | cons c a2 ih =>
    intro b hcond
    have h0 : old.isPrefixOf ((c :: a2) ++ (old ++ b)) = false := by
      have := hcond 0 (by simp)
      simpa using this
    rw [show (c :: a2) ++ (old ++ b) = c :: (a2 ++ (old ++ b)) from rfl]
    rw [replaceOnce]
    rw [if_neg (by rw [show c :: (a2 ++ (old ++ b)) = (c :: a2) ++ (old ++ b) from rfl, h0]; simp)]
    rw [ih b (fun i hi => by
      have := hcond (i + 1) (by simpa using Nat.succ_lt_succ hi)
      simpa using this)]
    rfl

theorem destName_decomp (s : String) (h : pyEndsWith s (".vmdk") = true) :
    ∃ a b : List Char, s.data = a ++ ((".vmdk").data ++ b) ∧
      (destName s).data = a ++ ((".ova.vmdk").data ++ b) := by
  have hsuf : (".vmdk").data <:+ s.data :=
    List.isSuffixOf_iff_suffix.mp h
  obtain ⟨t, ht⟩ := hsuf
  have hocc : ∃ i, (".vmdk").data.isPrefixOf (s.data.drop i) = true := by
    refine ⟨t.length, ?_⟩
    rw [← ht, List.drop_left]
    exact List.isPrefixOf_iff_prefix.mpr (List.prefix_refl _)
  obtain ⟨a, b, hab, hmin⟩ :=
    exists_first_occ (".vmdk").data s.data (by decide) hocc
  refine ⟨a, b, hab, ?_⟩
  show (String.mk (replaceOnce (".vmdk").data (".ova.vmdk").data s.data)).data = _
  rw [hab]
  exact congrArg id (replaceOnce_first (".vmdk").data (".ova.vmdk").data
    (by decide) a b (fun i hi => by rw [← hab]; exact hmin i hi))

theorem destName_length (s : String) (h : pyEndsWith s (".vmdk") = true) :
    (destName s).data.length = s.data.length + 4 := by
  obtain ⟨a, b, h1, h2⟩ := destName_decomp s h
  rw [h1, h2]
  simp
  omega

theorem destName_ne_self (s : String) (h : pyEndsWith s (".vmdk") = true) :
    destName s ≠ s := by
  intro he
  have := congrArg (fun x => x.data.length) he
  simp only at this
  rw [destName_length s h] at this
  omega

theorem destName_last (s : String) (h : pyEndsWith s (".vmdk") = true) :
    (destName s).data.getLast? = some 'k' := by
  obtain ⟨a, b, h1, h2⟩ := destName_decomp s h
  rw [h2]
  rcases b with _ | ⟨x, xs⟩
  · rw [List.getLast?_append_of_ne_nil _ (by decide)]
    decide
  · rw [List.getLast?_append_of_ne_nil _ (by simp)]
    rw [List.getLast?_append_of_ne_nil _ (List.cons_ne_nil x xs)]
    have hs : s.data.getLast? = some 'k' := by
      obtain ⟨t, ht⟩ := List.isSuffixOf_iff_suffix.mp h
      rw [← ht, List.getLast?_append_of_ne_nil _ (by decide)]
      decide
    rw [h1] at hs
    rw [List.getLast?_append_of_ne_nil _ (by simp)] at hs
    rw [List.getLast?_append_of_ne_nil _ (List.cons_ne_nil x xs)] at hs
    exact hs

/-! ### The chunked read accumulates the whole file -/

theorem readAll_eq (bs : Bytes) : readAll bs = bs := by
  rw [readAll]
  by_cases h : bs = []
  · rw [dif_pos h, h]
  · rw [dif_neg h, readAll_eq (bs.drop 65536)]
    exact List.take_append_drop _ _
termination_by bs.length
decreasing_by
  have hpos : 0 < bs.length := List.length_pos.mpr h
  simp [List.length_drop]
  omega

/-! ### Concrete instances of the abstract parameters, used by the witnesses -/

/-- A concrete text encoding for witnesses. -/
def encW : String → Bytes := fun s => s.data.map Char.toNat

/-- A concrete tar serialization for witnesses. -/
def tarEW : List (String × Bytes) → Bytes := fun ms => (ms.map Prod.snd).foldr (· ++ ·) []

/-- A concrete digest function for witnesses. -/
def HW : Bytes → String := fun bs => toString bs.length

/-- A concrete converter for witnesses: the identity conversion. -/
def convW : Bytes → Option Bytes := fun bs => some bs

/-! ### C9 -/

theorem get_vmdk_files_loop_eq (l : List FileEntry) : ∀ acc,
    get_vmdk_files_loop acc l =
      acc ++ l.filter (fun f => pyEndsWith f.name (".vmdk")) := by
  induction l with
  | nil => intro acc; simp [get_vmdk_files_loop]
  | cons f rest ih =>
    intro acc
    by_cases hf : pyEndsWith f.name (".vmdk") = true
    · simp [get_vmdk_files_loop, hf, ih, List.filter_cons]
    · simp [get_vmdk_files_loop, hf, ih, List.filter_cons,
        Bool.not_eq_true _ ▸ hf]

theorem get_vmdk_files_eq_filter (inlist : List FileEntry) :
    get_vmdk_files inlist =
      inlist.filter (fun f => pyEndsWith f.name (".vmdk")) := by
  rw [get_vmdk_files, get_vmdk_files_loop_eq]
  simp

/-- C9: the files selected for conversion are exactly the sub-list of the
build's file entries whose name ends in `.vmdk`, in manifest order. -/
theorem vmdk_selection_filter (inlist : List FileEntry) :
    get_vmdk_files inlist =
      inlist.filter (fun f => pyEndsWith f.name (".vmdk")) :=
  get_vmdk_files_eq_filter inlist

/-! ### C10 -/

/-- C10: the converted disk's destination path is the source name with the
first (leftmost) occurrence of `.vmdk` replaced by `.ova.vmdk`: whenever the
source name splits as `a ++ ".vmdk" ++ b` with no occurrence of `.vmdk`
starting inside `a`, the destination is `a ++ ".ova.vmdk" ++ b` — so for a
name with `.vmdk` before its final extension the replacement happens at that
earlier occurrence. -/
theorem dest_name_first_occurrence (a b : String)
    (h : ∀ i < a.data.length,
      (".vmdk").data.isPrefixOf ((a ++ ((".vmdk") ++ b)).data.drop i) = false) :
    destName (a ++ ((".vmdk") ++ b)) = a ++ ((".ova.vmdk") ++ b) := by
  have hd : (a ++ ((".vmdk") ++ b)).data =
      a.data ++ ((".vmdk").data ++ b.data) := by
    rw [strData_append, strData_append]
  apply strExt
  rw [show (destName (a ++ ((".vmdk") ++ b))).data =
    replaceOnce (".vmdk").data (".ova.vmdk").data
      ((a ++ ((".vmdk") ++ b)).data) from rfl, hd]
  rw [strData_append, strData_append]
  exact replaceOnce_first (".vmdk").data (".ova.vmdk").data (by decide)
    a.data b.data (fun i hi => by rw [← hd]; exact h i hi)

theorem dest_name_first_occurrence_witness :
    destName (("a") ++ ((".vmdk") ++ (".disk.vmdk"))) =
      ("a") ++ ((".ova.vmdk") ++ (".disk.vmdk")) :=
  dest_name_first_occurrence ("a") (".disk.vmdk") (by decide)

/-! ### C7 -/

/-- C7: only the first build entry is consumed — two parsed manifests with the
same first build entry produce identical results (same failure, same final
filesystem) on any starting filesystem, whatever their remaining build
entries. -/
theorem only_first_build_consumed (enc : String → Bytes)
    (tarE : List (String × Bytes) → Bytes) (H : Bytes → String)
    (conv : Bytes → Option Bytes) (m1 m2 : BuildManifest) (build : Build)
    (r1 r2 : List Build) (fs0 : FS) (h1 : m1.builds = build :: r1)
    (h2 : m2.builds = build :: r2) :
    runMain enc tarE H conv (.parsed m1) fs0 =
      runMain enc tarE H conv (.parsed m2) fs0 := by
  simp only [runMain, h1, h2]

theorem only_first_build_consumed_witness :
    runMain encW tarEW HW convW
      (.parsed ⟨[⟨("b"), ("a"), [], []⟩, ⟨("c"), ("d"), [], []⟩]⟩) [] =
    runMain encW tarEW HW convW (.parsed ⟨[⟨("b"), ("a"), [], []⟩]⟩) [] :=
  only_first_build_consumed encW tarEW HW convW _ _ ⟨("b"), ("a"), [], []⟩
    [⟨("c"), ("d"), [], []⟩] [] [] rfl rfl

/-! ### C8 -/

/-- C8: a missing or malformed manifest file fails with the spec's ParseError,
a parsed manifest with no builds fails with the spec's StructureError, and in
all three cases the filesystem is returned unchanged — the pipeline aborts
before conversion or any output. -/
theorem manifest_load_failures (enc : String → Bytes)
    (tarE : List (String × Bytes) → Bytes) (H : Bytes → String)
    (conv : Bytes → Option Bytes) (fs0 : FS) (data : BuildManifest) :
    runMain enc tarE H conv .missing fs0 = (some (.parseError), fs0) ∧
    runMain enc tarE H conv .malformed fs0 = (some (.parseError), fs0) ∧
    (data.builds = [] →
      runMain enc tarE H conv (.parsed data) fs0 =
        (some (.structureError), fs0)) := by
  refine ⟨rfl, rfl, fun h => ?_⟩
  simp only [runMain, h]

theorem manifest_load_failures_witness :
    runMain encW tarEW HW convW .missing [] = (some (.parseError), []) ∧
    runMain encW tarEW HW convW .malformed [] = (some (.parseError), []) ∧
    runMain encW tarEW HW convW (.parsed ⟨[]⟩) [] =
      (some (.structureError), []) :=
  ⟨(manifest_load_failures encW tarEW HW convW [] ⟨[]⟩).1,
   (manifest_load_failures encW tarEW HW convW [] ⟨[]⟩).2.1,
   (manifest_load_failures encW tarEW HW convW [] ⟨[]⟩).2.2 rfl⟩

/-! ### C5 -/

/-- C5: for a disk file to be converted, the destination file is deleted
before the converter is invoked, so the destination afterwards holds exactly
the fresh conversion output (or nothing at all when the converter fails) —
independently of any file previously at the destination path. -/
theorem converter_overwrites_destination (enc : String → Bytes)
    (tarE : List (String × Bytes) → Bytes) (conv : Bytes → Option Bytes)
    (fs : FS) (f : FileEntry) (fc : FileContent)
    (hv : pyEndsWith f.name (".vmdk") = true)
    (hin : fsLookup fs f.name = some fc) :
    fsLookup (stream_optimize_vmdk_files enc tarE conv [f] fs).2
        (destName f.name) =
      (conv (bytesOf enc tarE fc)).map FileContent.bytes := by
  have hne : f.name ≠ destName f.name :=
    fun he => destName_ne_self f.name hv he.symm
  rw [stream_optimize_vmdk_files]
  cases hdest : fsLookup fs (destName f.name) with
  | some old =>
    simp only [hdest]
    rw [fsLookup_remove_ne _ _ _ hne, hin]
    cases hc : conv (bytesOf enc tarE fc) with
    | none => simp only [hc]; exact fsLookup_remove_self _ _
    | some out =>
      simp only [hc, stream_optimize_vmdk_files]
      exact fsLookup_write_self _ _ _
  | none =>
    simp only [hdest]
    rw [hin]
    cases hc : conv (bytesOf enc tarE fc) with
    | none => simp only [hc]; exact hdest
    | some out =>
      simp only [hc, stream_optimize_vmdk_files]
      exact fsLookup_write_self _ _ _

theorem converter_overwrites_destination_witness :
    fsLookup (stream_optimize_vmdk_files encW tarEW convW
        [⟨("x.vmdk"), 3⟩]
        [(("x.ova.vmdk"), .bytes [9, 9]), (("x.vmdk"), .bytes [1, 2, 3])]).2
        (destName ("x.vmdk")) =
      (convW (bytesOf encW tarEW (.bytes [1, 2, 3]))).map FileContent.bytes :=
  converter_overwrites_destination encW tarEW convW
    [(("x.ova.vmdk"), .bytes [9, 9]), (("x.vmdk"), .bytes [1, 2, 3])]
    ⟨("x.vmdk"), 3⟩ (.bytes [1, 2, 3]) (by decide) (by decide)

/-! ### C2 -/

/-- C2: the checksum manifest writer emits exactly one line per input path, in
input order, of the form `SHA256(path)= digest`, where the digest is the hash
function applied to the file's full byte contents — the 65536-byte chunked
read loop accumulates exactly the whole file. -/
theorem checksum_manifest_lines (enc : String → Bytes)
    (tarE : List (String × Bytes) → Bytes) (H : Bytes → String) (fs : FS)
    (paths : List String) (h : ∀ p ∈ paths, (fsLookup fs p).isSome = true) :
    create_ova_manifest_text enc tarE H fs paths =
      .ok (List.foldr (fun a r => a ++ r) ("") (paths.map (fun p =>
        ("SHA256(") ++ p ++ (")= ") ++
          H (bytesOf enc tarE ((fsLookup fs p).getD (.bytes []))) ++
          ("\n")))) := by
  induction paths with
  | nil => rfl
  | cons p rest ih =>
    have hp := h p (by simp)
    obtain ⟨fc, hfc⟩ := Option.isSome_iff_exists.mp hp
    rw [create_ova_manifest_text]
    simp only [sha256, hfc]
    rw [ih (fun q hq => h q (by simp [hq]))]
    simp [readAll_eq, hfc]

theorem checksum_manifest_lines_witness :
    create_ova_manifest_text encW tarEW HW
        [(("a.ovf"), .text ("hello")), (("a.ova.vmdk"), .bytes [1, 2])]
        [("a.ovf"), ("a.ova.vmdk")] =
      .ok (List.foldr (fun a r => a ++ r) ("")
        ([("a.ovf"), ("a.ova.vmdk")].map (fun p =>
          ("SHA256(") ++ p ++ (")= ") ++
            HW (bytesOf encW tarEW
              ((fsLookup [(("a.ovf"), .text ("hello")),
                          (("a.ova.vmdk"), .bytes [1, 2])] p).getD
                (.bytes []))) ++ ("\n")))) :=
  checksum_manifest_lines encW tarEW HW
    [(("a.ovf"), .text ("hello")), (("a.ova.vmdk"), .bytes [1, 2])]
    [("a.ovf"), ("a.ova.vmdk")] (by decide)

/-! ### Distinctness of the output paths -/

theorem ne_append_right (s t : String) (ht : t.data ≠ []) : s ≠ s ++ t := by
  intro he
  have h1 := congrArg (fun x => x.data.length) he
  simp only [strData_append, List.length_append] at h1
  have h2 : 0 < t.data.length := List.length_pos.mpr ht
  omega

theorem dest_ne_cat (d : String) (hv : pyEndsWith d (".vmdk") = true)
    (s t : String) (ht : t.data ≠ []) (hlast : t.data.getLast? ≠ some 'k') :
    destName d ≠ s ++ t := by
  apply ne_of_last
  rw [destName_last d hv, str_last_append s t ht]
  exact fun hh => hlast hh.symm

/-! ### Evaluation of the pipeline stages on a successful single-disk run -/

theorem stream_single (enc : String → Bytes)
    (tarE : List (String × Bytes) → Bytes) (conv : Bytes → Option Bytes)
    (fs0 : FS) (f : FileEntry) (fc : FileContent) (out : Bytes)
    (hv : pyEndsWith f.name (".vmdk") = true)
    (hin : fsLookup fs0 f.name = some fc)
    (hconv : conv (bytesOf enc tarE fc) = some out) :
    stream_optimize_vmdk_files enc tarE conv [f] fs0 =
      (.ok [⟨f.name, f.size, destName f.name, out.length⟩],
       fsWrite (destName f.name) (.bytes out)
         (match fsLookup fs0 (destName f.name) with
          | some _ => fsRemove (destName f.name) fs0
          | none => fs0)) := by
  have hne : f.name ≠ destName f.name :=
    fun he => destName_ne_self f.name hv he.symm
  rw [stream_optimize_vmdk_files]
  cases hdest : fsLookup fs0 (destName f.name) with
  | some old =>
    simp only [hdest, fsLookup_remove_ne _ _ _ hne, hin, hconv,
      stream_optimize_vmdk_files]
  | none =>
    simp only [hdest, hin, hconv, stream_optimize_vmdk_files]

theorem buildOvfData_ok (build : Build) (vmdk : ConvertedEntry)
    (v1 v2 v3 v4 v5 v6 v7 v8 v9 v10 : String)
    (h1 : lookupKey build.custom_data ("build_date") = some v1)
    (h2 : lookupKey build.custom_data ("build_timestamp") = some v2)
    (h3 : lookupKey build.custom_data ("capi_version") = some v3)
    (h4 : lookupKey build.custom_data ("kubernetes_cni_semver") = some v4)
    (h5 : lookupKey build.custom_data ("os_name") = some v5)
    (h6 : lookupKey build.custom_data ("iso_checksum") = some v6)
    (h7 : lookupKey build.custom_data ("iso_checksum_type") = some v7)
    (h8 : lookupKey build.custom_data ("iso_url") = some v8)
    (h9 : lookupKey build.custom_data ("kubernetes_semver") = some v9)
    (h10 : lookupKey build.custom_data ("kubernetes_source_type") = some v10) :
    buildOvfData build vmdk =
      .ok [(("BUILD_DATE"), v1),
           (("BUILD_NAME"), build.name),
           (("ARTIFACT_ID"), build.artifact_id),
           (("BUILD_TIMESTAMP"), v2),
           (("CAPI_VERSION"), v3),
           (("CNI_VERSION"), v4),
           (("OS_NAME"), v5),
           (("ISO_CHECKSUM"), v6),
           (("ISO_CHECKSUM_TYPE"), v7),
           (("ISO_URL"), v8),
           (("KUBERNETES_SEMVER"), v9),
           (("KUBERNETES_SOURCE_TYPE"), v10),
           (("POPULATED_DISK_SIZE"), toString vmdk.size),
           (("STREAM_DISK_SIZE"), toString vmdk.stream_size)] := by
  simp only [buildOvfData, getKey, h1, h2, h3, h4, h5, h6, h7, h8, h9, h10]

theorem substitute_full (n aid v1 v2 v3 v4 v5 v6 v7 v8 v9 v10 ps ss : String) :
    substitute [(("BUILD_DATE"), v1),
                (("BUILD_NAME"), n),
                (("ARTIFACT_ID"), aid),
                (("BUILD_TIMESTAMP"), v2),
                (("CAPI_VERSION"), v3),
                (("CNI_VERSION"), v4),
                (("OS_NAME"), v5),
                (("ISO_CHECKSUM"), v6),
                (("ISO_CHECKSUM_TYPE"), v7),
                (("ISO_URL"), v8),
                (("KUBERNETES_SEMVER"), v9),
                (("KUBERNETES_SOURCE_TYPE"), v10),
                (("POPULATED_DISK_SIZE"), ps),
                (("STREAM_DISK_SIZE"), ss)] =
      .ok (String.join [n, ss, ps, aid, aid, v5, v9, v5, v9, v9, v9,
                        v2, v1, v3, v4, v8, v6, v7, v9, v10]) := rfl

/-! ### Full evaluation of a successful single-disk run -/

/-- The `custom_data` values consumed by the pipeline. -/
structure CustomVals where
  build_date : String
  build_timestamp : String
  capi_version : String
  cni_version : String
  os_name : String
  iso_checksum : String
  iso_checksum_type : String
  iso_url : String
  kubernetes_semver : String
  kubernetes_source_type : String
deriving DecidableEq

/-- The rendered OVF text of a successful run: the placeholder values in
template order (literal segments elided). -/
def ovfText (build : Build) (f : FileEntry) (out : Bytes) (cv : CustomVals) :
    String :=
  String.join [build.name, toString out.length, toString f.size,
    build.artifact_id, build.artifact_id, cv.os_name, cv.kubernetes_semver,
    cv.os_name, cv.kubernetes_semver, cv.kubernetes_semver,
    cv.kubernetes_semver, cv.build_timestamp, cv.build_date, cv.capi_version,
    cv.cni_version, cv.iso_url, cv.iso_checksum, cv.iso_checksum_type,
    cv.kubernetes_semver, cv.kubernetes_source_type]

/-- The checksum-manifest text of a successful single-disk run. -/
def mfText (enc : String → Bytes) (H : Bytes → String) (build : Build)
    (f : FileEntry) (out : Bytes) (cv : CustomVals) : String :=
  ("SHA256(") ++ (build.name ++ (".ovf")) ++ (")= ") ++
      (H (enc (ovfText build f out cv))) ++ ("\n") ++
    (("SHA256(") ++ (destName f.name) ++ (")= ") ++ (H out) ++ ("\n") ++ (""))

/-- The archive members of a successful single-disk run. -/
def ovaMembers (enc : String → Bytes) (H : Bytes → String) (build : Build)
    (f : FileEntry) (out : Bytes) (cv : CustomVals) :
    List (String × Bytes) :=
  [(build.name ++ (".ovf"), enc (ovfText build f out cv)),
   (build.name ++ (".mf"), enc (mfText enc H build f out cv)),
   (destName f.name, out)]

theorem runMain_single (enc : String → Bytes)
    (tarE : List (String × Bytes) → Bytes) (H : Bytes → String)
    (conv : Bytes → Option Bytes) (data : BuildManifest) (build : Build)
    (btail : List Build) (f : FileEntry) (fc : FileContent) (out : Bytes)
    (cv : CustomVals) (fs0 : FS)
    (hb : data.builds = build :: btail)
    (hvf : get_vmdk_files build.files = [f])
    (hin : fsLookup fs0 f.name = some fc)
    (hconv : conv (bytesOf enc tarE fc) = some out)
    (h1 : lookupKey build.custom_data ("build_date") = some cv.build_date)
    (h2 : lookupKey build.custom_data ("build_timestamp") = some cv.build_timestamp)
    (h3 : lookupKey build.custom_data ("capi_version") = some cv.capi_version)
    (h4 : lookupKey build.custom_data ("kubernetes_cni_semver") = some cv.cni_version)
    (h5 : lookupKey build.custom_data ("os_name") = some cv.os_name)
    (h6 : lookupKey build.custom_data ("iso_checksum") = some cv.iso_checksum)
    (h7 : lookupKey build.custom_data ("iso_checksum_type") = some cv.iso_checksum_type)
    (h8 : lookupKey build.custom_data ("iso_url") = some cv.iso_url)
    (h9 : lookupKey build.custom_data ("kubernetes_semver") = some cv.kubernetes_semver)
    (h10 : lookupKey build.custom_data ("kubernetes_source_type") = some cv.kubernetes_source_type) :
    runMain enc tarE H conv (.parsed data) fs0 =
      (none,
       fsWrite ((build.name ++ (".ova")) ++ (".sha256"))
         (.text (H (tarE (ovaMembers enc H build f out cv))))
         (fsWrite (build.name ++ (".ova"))
           (.tar (ovaMembers enc H build f out cv))
           (fsWrite (build.name ++ (".ova")) (.bytes [])
             (fsWrite (build.name ++ (".mf"))
               (.text (mfText enc H build f out cv))
               (fsWrite (build.name ++ (".mf")) (.text (""))
                 (fsWrite (build.name ++ (".ovf"))
                   (.text (ovfText build f out cv))
                   (fsWrite (build.name ++ (".ovf")) (.text (""))
                     (fsWrite (destName f.name) (.bytes out)
                       (match fsLookup fs0 (destName f.name) with
                        | some _ => fsRemove (destName f.name) fs0
                        | none => fs0))))))))) := by
  have hv : pyEndsWith f.name (".vmdk") = true := by
    have hmem : f ∈ get_vmdk_files build.files := by rw [hvf]; simp
    rw [get_vmdk_files_eq_filter] at hmem
    exact (List.mem_filter.mp hmem).2
  have hovf_mf : ¬(build.name ++ (".ovf") = build.name ++ (".mf")) :=
    append_right_ne build.name (by decide)
  have hovf_ova : ¬(build.name ++ (".ovf") = build.name ++ (".ova")) :=
    append_right_ne build.name (by decide)
  have hmf_ova : ¬(build.name ++ (".mf") = build.name ++ (".ova")) :=
    append_right_ne build.name (by decide)
  have hdst_ovf : ¬(destName f.name = build.name ++ (".ovf")) :=
    dest_ne_cat f.name hv build.name (".ovf") (by decide) (by decide)
  have hdst_mf : ¬(destName f.name = build.name ++ (".mf")) :=
    dest_ne_cat f.name hv build.name (".mf") (by decide) (by decide)
  have hdst_ova : ¬(destName f.name = build.name ++ (".ova")) :=
    dest_ne_cat f.name hv build.name (".ova") (by decide) (by decide)
  simp only [runMain, hb, h9, hvf,
    stream_single enc tarE conv fs0 f fc out hv hin hconv,
    buildOvfData_ok build _ _ _ _ _ _ _ _ _ _ _ h1 h2 h3 h4 h5 h6 h7 h8 h9 h10,
    create_ovf, substitute_full, create_ova_manifest_text, sha256, tarAdds,
    create_ova, fsWrite, fsLookup, bytesOf, readAll_eq,
    hovf_mf, hovf_ova, hmf_ova, hdst_ovf, hdst_mf, hdst_ova,
    ovfText, mfText, ovaMembers, if_true, if_false]

/-! ### C1 -/

/-- C1: for a manifest whose first (only) build has exactly one disk file, a
successful run produces an archive with exactly three members, in the order
OVF descriptor, checksum manifest, stream-optimized disk file. -/
theorem ova_archive_three_members (enc : String → Bytes)
    (tarE : List (String × Bytes) → Bytes) (H : Bytes → String)
    (conv : Bytes → Option Bytes) (data : BuildManifest) (build : Build)
    (f : FileEntry) (fc : FileContent) (out : Bytes) (cv : CustomVals)
    (fs0 : FS)
    (hb : data.builds = [build])
    (hvf : get_vmdk_files build.files = [f])
    (hin : fsLookup fs0 f.name = some fc)
    (hconv : conv (bytesOf enc tarE fc) = some out)
    (h1 : lookupKey build.custom_data ("build_date") = some cv.build_date)
    (h2 : lookupKey build.custom_data ("build_timestamp") = some cv.build_timestamp)
    (h3 : lookupKey build.custom_data ("capi_version") = some cv.capi_version)
    (h4 : lookupKey build.custom_data ("kubernetes_cni_semver") = some cv.cni_version)
    (h5 : lookupKey build.custom_data ("os_name") = some cv.os_name)
    (h6 : lookupKey build.custom_data ("iso_checksum") = some cv.iso_checksum)
    (h7 : lookupKey build.custom_data ("iso_checksum_type") = some cv.iso_checksum_type)
    (h8 : lookupKey build.custom_data ("iso_url") = some cv.iso_url)
    (h9 : lookupKey build.custom_data ("kubernetes_semver") = some cv.kubernetes_semver)
    (h10 : lookupKey build.custom_data ("kubernetes_source_type") = some cv.kubernetes_source_type) :
    (runMain enc tarE H conv (.parsed data) fs0).1 = none ∧
    ∃ c1 c2 c3,
      fsLookup (runMain enc tarE H conv (.parsed data) fs0).2
          (build.name ++ (".ova")) =
        some (.tar [(build.name ++ (".ovf"), c1),
                    (build.name ++ (".mf"), c2),
                    (destName f.name, c3)]) := by
  rw [runMain_single enc tarE H conv data build [] f fc out cv fs0 hb hvf hin
    hconv h1 h2 h3 h4 h5 h6 h7 h8 h9 h10]
  have hova_sha : ¬(build.name ++ (".ova") =
      (build.name ++ (".ova")) ++ (".sha256")) :=
    ne_append_right _ _ (by decide)
  refine ⟨rfl, enc (ovfText build f out cv),
    enc (mfText enc H build f out cv), out, ?_⟩
  simp [fsWrite, fsLookup, hova_sha, ovaMembers]

/-- The build used by the concrete witnesses of the successful-run claims. -/
def buildW : Build :=
  ⟨("ubuntu"), ("art-1"),
   [(("build_date"), ("d")), (("build_timestamp"), ("t")),
    (("capi_version"), ("c")), (("kubernetes_cni_semver"), ("n")),
    (("os_name"), ("o")), (("iso_checksum"), ("i")),
    (("iso_checksum_type"), ("y")), (("iso_url"), ("u")),
    (("kubernetes_semver"), ("k")), (("kubernetes_source_type"), ("s"))],
   [⟨("disk1.vmdk"), 5⟩]⟩

/-- The `custom_data` values of `buildW`. -/
def cvW : CustomVals :=
  ⟨("d"), ("t"), ("c"), ("n"), ("o"), ("i"), ("y"), ("u"), ("k"), ("s")⟩

/-- The starting filesystem used by the concrete witnesses. -/
def fs0W : FS := [(("disk1.vmdk"), .bytes [1, 2, 3])]

theorem ova_archive_three_members_witness :
    (runMain encW tarEW HW convW (.parsed ⟨[buildW]⟩) fs0W).1 = none ∧
    ∃ c1 c2 c3,
      fsLookup (runMain encW tarEW HW convW (.parsed ⟨[buildW]⟩) fs0W).2
          (buildW.name ++ (".ova")) =
        some (.tar [(buildW.name ++ (".ovf"), c1),
                    (buildW.name ++ (".mf"), c2),
                    (destName (("disk1.vmdk")), c3)]) :=
  ova_archive_three_members encW tarEW HW convW ⟨[buildW]⟩ buildW
    ⟨("disk1.vmdk"), 5⟩ (.bytes [1, 2, 3]) [1, 2, 3] cvW fs0W rfl (by decide)
    (by decide) rfl rfl rfl rfl rfl rfl rfl rfl rfl rfl rfl

/-! ### C3 -/

/-- C3: after a successful run, the sidecar file `<archive>.sha256` holds the
hex digest of the archive file's bytes exactly as the archive was written to
disk. -/
theorem ova_sidecar_digest (enc : String → Bytes)
    (tarE : List (String × Bytes) → Bytes) (H : Bytes → String)
    (conv : Bytes → Option Bytes) (data : BuildManifest) (build : Build)
    (f : FileEntry) (fc : FileContent) (out : Bytes) (cv : CustomVals)
    (fs0 : FS)
    (hb : data.builds = [build])
    (hvf : get_vmdk_files build.files = [f])
    (hin : fsLookup fs0 f.name = some fc)
    (hconv : conv (bytesOf enc tarE fc) = some out)
    (h1 : lookupKey build.custom_data ("build_date") = some cv.build_date)
    (h2 : lookupKey build.custom_data ("build_timestamp") = some cv.build_timestamp)
    (h3 : lookupKey build.custom_data ("capi_version") = some cv.capi_version)
    (h4 : lookupKey build.custom_data ("kubernetes_cni_semver") = some cv.cni_version)
    (h5 : lookupKey build.custom_data ("os_name") = some cv.os_name)
    (h6 : lookupKey build.custom_data ("iso_checksum") = some cv.iso_checksum)
    (h7 : lookupKey build.custom_data ("iso_checksum_type") = some cv.iso_checksum_type)
    (h8 : lookupKey build.custom_data ("iso_url") = some cv.iso_url)
    (h9 : lookupKey build.custom_data ("kubernetes_semver") = some cv.kubernetes_semver)
    (h10 : lookupKey build.custom_data ("kubernetes_source_type") = some cv.kubernetes_source_type) :
    ∃ arc,
      fsLookup (runMain enc tarE H conv (.parsed data) fs0).2
          (build.name ++ (".ova")) = some arc ∧
      fsLookup (runMain enc tarE H conv (.parsed data) fs0).2
          ((build.name ++ (".ova")) ++ (".sha256")) =
        some (.text (H (bytesOf enc tarE arc))) := by
  rw [runMain_single enc tarE H conv data build [] f fc out cv fs0 hb hvf hin
    hconv h1 h2 h3 h4 h5 h6 h7 h8 h9 h10]
  have hova_sha : ¬(build.name ++ (".ova") =
      (build.name ++ (".ova")) ++ (".sha256")) :=
    ne_append_right _ _ (by decide)
  refine ⟨.tar (ovaMembers enc H build f out cv), ?_, ?_⟩
  · simp [fsWrite, fsLookup, hova_sha]
  · simp [fsWrite, fsLookup, bytesOf]

theorem ova_sidecar_digest_witness :
    ∃ arc,
      fsLookup (runMain encW tarEW HW convW (.parsed ⟨[buildW]⟩) fs0W).2
          (buildW.name ++ (".ova")) = some arc ∧
      fsLookup (runMain encW tarEW HW convW (.parsed ⟨[buildW]⟩) fs0W).2
          ((buildW.name ++ (".ova")) ++ (".sha256")) =
        some (.text (HW (bytesOf encW tarEW arc))) :=
  ova_sidecar_digest encW tarEW HW convW ⟨[buildW]⟩ buildW
    ⟨("disk1.vmdk"), 5⟩ (.bytes [1, 2, 3]) [1, 2, 3] cvW fs0W rfl (by decide)
    (by decide) rfl rfl rfl rfl rfl rfl rfl rfl rfl rfl rfl

/-! ### C4 -/

/-- The ten `custom_data` keys the descriptor-data dictionary reads. -/
def requiredCustomKeys : List String :=
  [("build_date"), ("build_timestamp"), ("capi_version"),
   ("kubernetes_cni_semver"), ("os_name"), ("iso_checksum"),
   ("iso_checksum_type"), ("iso_url"), ("kubernetes_semver"),
   ("kubernetes_source_type")]

theorem buildOvfData_error (build : Build) (vmdk : ConvertedEntry)
    (k : String) (hk : k ∈ requiredCustomKeys)
    (hmiss : lookupKey build.custom_data k = none) :
    ∃ k2, buildOvfData build vmdk = .error (.keyError k2) := by
  cases c1 : lookupKey build.custom_data ("build_date") with
  | none => exact ⟨("build_date"), by simp only [buildOvfData, getKey, c1]⟩
  | some w1 =>
  cases c2 : lookupKey build.custom_data ("build_timestamp") with
  | none => exact ⟨("build_timestamp"), by simp only [buildOvfData, getKey, c1, c2]⟩
  | some w2 =>
  cases c3 : lookupKey build.custom_data ("capi_version") with
  | none => exact ⟨("capi_version"), by simp only [buildOvfData, getKey, c1, c2, c3]⟩
  | some w3 =>
  cases c4 : lookupKey build.custom_data ("kubernetes_cni_semver") with
  | none => exact ⟨("kubernetes_cni_semver"), by simp only [buildOvfData, getKey, c1, c2, c3, c4]⟩
  | some w4 =>
  cases c5 : lookupKey build.custom_data ("os_name") with
  | none => exact ⟨("os_name"), by simp only [buildOvfData, getKey, c1, c2, c3, c4, c5]⟩
  | some w5 =>
  cases c6 : lookupKey build.custom_data ("iso_checksum") with
  | none =>
    exact ⟨("iso_checksum"), by
      simp only [buildOvfData, getKey, c1, c2, c3, c4, c5, c6]⟩
  | some w6 =>
  cases c7 : lookupKey build.custom_data ("iso_checksum_type") with
  | none =>
    exact ⟨("iso_checksum_type"), by
      simp only [buildOvfData, getKey, c1, c2, c3, c4, c5, c6, c7]⟩
  | some w7 =>
  cases c8 : lookupKey build.custom_data ("iso_url") with
  | none =>
    exact ⟨("iso_url"), by
      simp only [buildOvfData, getKey, c1, c2, c3, c4, c5, c6, c7, c8]⟩
  | some w8 =>
  cases c9 : lookupKey build.custom_data ("kubernetes_semver") with
  | none =>
    exact ⟨("kubernetes_semver"), by
      simp only [buildOvfData, getKey, c1, c2, c3, c4, c5, c6, c7, c8, c9]⟩
  | some w9 =>
  cases c10 : lookupKey build.custom_data ("kubernetes_source_type") with
  | none =>
    exact ⟨("kubernetes_source_type"), by
      simp only [buildOvfData, getKey, c1, c2, c3, c4, c5, c6, c7, c8, c9, c10]⟩
  | some w10 =>
  exfalso
  simp only [requiredCustomKeys, List.mem_cons, List.not_mem_nil,
    or_false] at hk
  rcases hk with h | h | h | h | h | h | h | h | h | h <;> subst h <;>
    simp_all

/-- The manifest used by the C4 counterexample: one build, one disk file,
`custom_data` holding only `kubernetes_semver` (so `build_date` is missing). -/
def dataMissingKey : BuildManifest :=
  ⟨[⟨("ubuntu"), ("art"), [(("kubernetes_semver"), ("k"))],
    [⟨("disk1.vmdk"), 5⟩]⟩]⟩

/-- The starting filesystem of the C4 counterexample. -/
def fs0MissingKey : FS := [(("disk1.vmdk"), .bytes [7])]

/-- C4 counterexample: with `build_date` missing from the manifest, descriptor
rendering does fail (`KeyError ('build_date')`), but an output file has
already been written by the pipeline: the stream-optimized disk
`disk1.ova.vmdk`, absent from the starting filesystem, is present in the
filesystem at the moment of failure.  So rendering does not fail "before any
output file is written". -/
theorem ovf_missing_key_counterexample :
    (runMain encW tarEW HW convW (.parsed dataMissingKey) fs0MissingKey).1 =
        some (.keyError ("build_date")) ∧
    fsLookup fs0MissingKey (("disk1.ova.vmdk")) = none ∧
    fsLookup
        (runMain encW tarEW HW convW (.parsed dataMissingKey) fs0MissingKey).2
        (("disk1.ova.vmdk")) = some (.bytes [7]) := by
  decide

/-- Lookups in the filesystem left by a single conversion step are unchanged
at every path other than the destination. -/
theorem lookup_convFS (fs0 : FS) (dst q : String) (out : Bytes)
    (hq : q ≠ dst) :
    fsLookup (fsWrite dst (.bytes out)
      (match fsLookup fs0 dst with
       | some _ => fsRemove dst fs0
       | none => fs0)) q = fsLookup fs0 q := by
  rw [fsLookup_write_ne _ _ _ _ hq]
  cases hdest : fsLookup fs0 dst with
  | some old => exact fsLookup_remove_ne _ _ _ hq
  | none => rfl

/-- C4 (amended): if a `custom_data` key required by the descriptor dictionary
is missing from the manifest (while `kubernetes_semver`, read at load time, is
present), the pipeline fails with a KeyError before the descriptor, the
checksum manifest, the archive or its sidecar is written — those four paths
are untouched — but only after the conversion step has already written the
stream-optimized disk file. -/
theorem missing_key_fails_after_conversion (enc : String → Bytes)
    (tarE : List (String × Bytes) → Bytes) (H : Bytes → String)
    (conv : Bytes → Option Bytes) (data : BuildManifest) (build : Build)
    (btail : List Build) (f : FileEntry) (fc : FileContent) (out : Bytes)
    (k v9 : String) (fs0 : FS)
    (hb : data.builds = build :: btail)
    (hvf : get_vmdk_files build.files = [f])
    (hin : fsLookup fs0 f.name = some fc)
    (hconv : conv (bytesOf enc tarE fc) = some out)
    (hsem : lookupKey build.custom_data ("kubernetes_semver") = some v9)
    (hk : k ∈ requiredCustomKeys)
    (hmiss : lookupKey build.custom_data k = none) :
    ∃ k2,
      (runMain enc tarE H conv (.parsed data) fs0).1 =
          some (.keyError k2) ∧
      (runMain enc tarE H conv (.parsed data) fs0).2 =
        fsWrite (destName f.name) (.bytes out)
          (match fsLookup fs0 (destName f.name) with
           | some _ => fsRemove (destName f.name) fs0
           | none => fs0) ∧
      fsLookup (runMain enc tarE H conv (.parsed data) fs0).2
          (build.name ++ (".ovf")) =
        fsLookup fs0 (build.name ++ (".ovf")) ∧
      fsLookup (runMain enc tarE H conv (.parsed data) fs0).2
          (build.name ++ (".mf")) =
        fsLookup fs0 (build.name ++ (".mf")) ∧
      fsLookup (runMain enc tarE H conv (.parsed data) fs0).2
          (build.name ++ (".ova")) =
        fsLookup fs0 (build.name ++ (".ova")) ∧
      fsLookup (runMain enc tarE H conv (.parsed data) fs0).2
          ((build.name ++ (".ova")) ++ (".sha256")) =
        fsLookup fs0 ((build.name ++ (".ova")) ++ (".sha256")) := by
  have hv : pyEndsWith f.name (".vmdk") = true := by
    have hmem : f ∈ get_vmdk_files build.files := by rw [hvf]; simp
    rw [get_vmdk_files_eq_filter] at hmem
    exact (List.mem_filter.mp hmem).2
  obtain ⟨k2, herr⟩ :=
    buildOvfData_error build
      ⟨f.name, f.size, destName f.name, out.length⟩ k hk hmiss
  have hrun : runMain enc tarE H conv (.parsed data) fs0 =
      (some (.keyError k2),
       fsWrite (destName f.name) (.bytes out)
         (match fsLookup fs0 (destName f.name) with
          | some _ => fsRemove (destName f.name) fs0
          | none => fs0)) := by
    simp only [runMain, hb, hsem, hvf,
      stream_single enc tarE conv fs0 f fc out hv hin hconv, herr]
  refine ⟨k2, ?_, ?_, ?_, ?_, ?_, ?_⟩
  · rw [hrun]
  · rw [hrun]
  · rw [hrun]
    exact lookup_convFS fs0 _ _ out
      (Ne.symm (dest_ne_cat f.name hv build.name (".ovf") (by decide) (by decide)))
  · rw [hrun]
    exact lookup_convFS fs0 _ _ out
      (Ne.symm (dest_ne_cat f.name hv build.name (".mf") (by decide) (by decide)))
  · rw [hrun]
    exact lookup_convFS fs0 _ _ out
      (Ne.symm (dest_ne_cat f.name hv build.name (".ova") (by decide) (by decide)))
  · rw [hrun]
    exact lookup_convFS fs0 _ _ out
      (Ne.symm (dest_ne_cat f.name hv (build.name ++ (".ova")) (".sha256")
        (by decide) (by decide)))

theorem missing_key_fails_after_conversion_witness :
    ∃ k2,
      (runMain encW tarEW HW convW (.parsed dataMissingKey)
          fs0MissingKey).1 = some (.keyError k2) ∧
      (runMain encW tarEW HW convW (.parsed dataMissingKey)
          fs0MissingKey).2 =
        fsWrite (destName (("disk1.vmdk"))) (.bytes [7])
          (match fsLookup fs0MissingKey (destName (("disk1.vmdk"))) with
           | some _ => fsRemove (destName (("disk1.vmdk"))) fs0MissingKey
           | none => fs0MissingKey) ∧
      fsLookup (runMain encW tarEW HW convW (.parsed dataMissingKey)
          fs0MissingKey).2 ((("ubuntu")) ++ (".ovf")) =
        fsLookup fs0MissingKey ((("ubuntu")) ++ (".ovf")) ∧
      fsLookup (runMain encW tarEW HW convW (.parsed dataMissingKey)
          fs0MissingKey).2 ((("ubuntu")) ++ (".mf")) =
        fsLookup fs0MissingKey ((("ubuntu")) ++ (".mf")) ∧
      fsLookup (runMain encW tarEW HW convW (.parsed dataMissingKey)
          fs0MissingKey).2 ((("ubuntu")) ++ (".ova")) =
        fsLookup fs0MissingKey ((("ubuntu")) ++ (".ova")) ∧
      fsLookup (runMain encW tarEW HW convW (.parsed dataMissingKey)
          fs0MissingKey).2 (((("ubuntu")) ++ (".ova")) ++ (".sha256")) =
        fsLookup fs0MissingKey (((("ubuntu")) ++ (".ova")) ++ (".sha256")) :=
  missing_key_fails_after_conversion encW tarEW HW convW dataMissingKey
    ⟨("ubuntu"), ("art"), [(("kubernetes_semver"), ("k"))],
      [⟨("disk1.vmdk"), 5⟩]⟩ [] ⟨("disk1.vmdk"), 5⟩ (.bytes [7]) [7]
    ("build_date") ("k") fs0MissingKey rfl (by decide) (by decide) rfl rfl
    (by decide) rfl

/-! ### C6 -/

theorem stream_two (enc : String → Bytes)
    (tarE : List (String × Bytes) → Bytes) (conv : Bytes → Option Bytes)
    (fs0 : FS) (f1 f2 : FileEntry) (fc1 fc2 : FileContent) (out1 out2 : Bytes)
    (hd1 : fsLookup fs0 (destName f1.name) = none)
    (hd2 : fsLookup fs0 (destName f2.name) = none)
    (hin1 : fsLookup fs0 f1.name = some fc1)
    (hin2 : fsLookup fs0 f2.name = some fc2)
    (hne12 : destName f2.name ≠ destName f1.name)
    (hne2d1 : f2.name ≠ destName f1.name)
    (hconv1 : conv (bytesOf enc tarE fc1) = some out1)
    (hconv2 : conv (bytesOf enc tarE fc2) = some out2) :
    stream_optimize_vmdk_files enc tarE conv [f1, f2] fs0 =
      (.ok [⟨f1.name, f1.size, destName f1.name, out1.length⟩,
            ⟨f2.name, f2.size, destName f2.name, out2.length⟩],
       fsWrite (destName f2.name) (.bytes out2)
         (fsWrite (destName f1.name) (.bytes out1) fs0)) := by
  simp only [stream_optimize_vmdk_files, hd1, hin1, hconv1,
    fsLookup_write_ne _ _ _ _ hne12, fsLookup_write_ne _ _ _ _ hne2d1,
    hd2, hin2, hconv2]

/-- The manifest used by the C6 counterexample and witness: one build with two
disk files. -/
def dataTwoDisks : BuildManifest :=
  ⟨[⟨("ubuntu"), ("art"), buildW.custom_data,
    [⟨("disk1.vmdk"), 5⟩, ⟨("disk2.vmdk"), 6⟩]⟩]⟩

/-- The starting filesystem of the C6 counterexample and witness. -/
def fs0TwoDisks : FS :=
  [(("disk1.vmdk"), .bytes [1]), (("disk2.vmdk"), .bytes [2])]

/-- C6 counterexample: on a manifest with two `.vmdk` files the run succeeds
and the second disk file has been processed too — its stream-optimized output
`disk2.ova.vmdk`, absent initially, is written to the filesystem.  So the
program does not process only the first disk file: the conversion loop
processes every `.vmdk` entry; only the packaging uses the first. -/
theorem only_first_disk_processed_counterexample :
    (runMain encW tarEW HW convW (.parsed dataTwoDisks) fs0TwoDisks).1 =
        none ∧
    fsLookup fs0TwoDisks (("disk2.ova.vmdk")) = none ∧
    fsLookup
        (runMain encW tarEW HW convW (.parsed dataTwoDisks) fs0TwoDisks).2
        (("disk2.ova.vmdk")) = some (.bytes [2]) := by
  decide

/-- C6 (amended): with more than one `.vmdk` file in the manifest, the
conversion step processes every one of them (here: the second file's
stream-optimized output is written), while only the first disk file is
packaged — the archive's three members are the descriptor, the checksum
manifest and the first file's stream-optimized disk. -/
theorem all_disks_converted_first_packaged (enc : String → Bytes)
    (tarE : List (String × Bytes) → Bytes) (H : Bytes → String)
    (conv : Bytes → Option Bytes) (data : BuildManifest) (build : Build)
    (btail : List Build) (f1 f2 : FileEntry) (fc1 fc2 : FileContent)
    (out1 out2 : Bytes) (cv : CustomVals) (fs0 : FS)
    (hb : data.builds = build :: btail)
    (hvf : get_vmdk_files build.files = [f1, f2])
    (hd1 : fsLookup fs0 (destName f1.name) = none)
    (hd2 : fsLookup fs0 (destName f2.name) = none)
    (hin1 : fsLookup fs0 f1.name = some fc1)
    (hin2 : fsLookup fs0 f2.name = some fc2)
    (hne12 : destName f2.name ≠ destName f1.name)
    (hne2d1 : f2.name ≠ destName f1.name)
    (hconv1 : conv (bytesOf enc tarE fc1) = some out1)
    (hconv2 : conv (bytesOf enc tarE fc2) = some out2)
    (h1 : lookupKey build.custom_data ("build_date") = some cv.build_date)
    (h2 : lookupKey build.custom_data ("build_timestamp") = some cv.build_timestamp)
    (h3 : lookupKey build.custom_data ("capi_version") = some cv.capi_version)
    (h4 : lookupKey build.custom_data ("kubernetes_cni_semver") = some cv.cni_version)
    (h5 : lookupKey build.custom_data ("os_name") = some cv.os_name)
    (h6 : lookupKey build.custom_data ("iso_checksum") = some cv.iso_checksum)
    (h7 : lookupKey build.custom_data ("iso_checksum_type") = some cv.iso_checksum_type)
    (h8 : lookupKey build.custom_data ("iso_url") = some cv.iso_url)
    (h9 : lookupKey build.custom_data ("kubernetes_semver") = some cv.kubernetes_semver)
    (h10 : lookupKey build.custom_data ("kubernetes_source_type") = some cv.kubernetes_source_type) :
    (runMain enc tarE H conv (.parsed data) fs0).1 = none ∧
    fsLookup (runMain enc tarE H conv (.parsed data) fs0).2
        (destName f2.name) = some (.bytes out2) ∧
    ∃ c1 c2 c3,
      fsLookup (runMain enc tarE H conv (.parsed data) fs0).2
          (build.name ++ (".ova")) =
        some (.tar [(build.name ++ (".ovf"), c1),
                    (build.name ++ (".mf"), c2),
                    (destName f1.name, c3)]) := by
  have hv1 : pyEndsWith f1.name (".vmdk") = true := by
    have hmem : f1 ∈ get_vmdk_files build.files := by rw [hvf]; simp
    rw [get_vmdk_files_eq_filter] at hmem
    exact (List.mem_filter.mp hmem).2
  have hv2 : pyEndsWith f2.name (".vmdk") = true := by
    have hmem : f2 ∈ get_vmdk_files build.files := by rw [hvf]; simp
    rw [get_vmdk_files_eq_filter] at hmem
    exact (List.mem_filter.mp hmem).2
  have hovf_mf : ¬(build.name ++ (".ovf") = build.name ++ (".mf")) :=
    append_right_ne build.name (by decide)
  have hovf_ova : ¬(build.name ++ (".ovf") = build.name ++ (".ova")) :=
    append_right_ne build.name (by decide)
  have hmf_ova : ¬(build.name ++ (".mf") = build.name ++ (".ova")) :=
    append_right_ne build.name (by decide)
  have hd1_ovf : ¬(destName f1.name = build.name ++ (".ovf")) :=
    dest_ne_cat f1.name hv1 build.name (".ovf") (by decide) (by decide)
  have hd1_mf : ¬(destName f1.name = build.name ++ (".mf")) :=
    dest_ne_cat f1.name hv1 build.name (".mf") (by decide) (by decide)
  have hd1_ova : ¬(destName f1.name = build.name ++ (".ova")) :=
    dest_ne_cat f1.name hv1 build.name (".ova") (by decide) (by decide)
  have hd1_d2 : ¬(destName f1.name = destName f2.name) := Ne.symm hne12
  have hrun : runMain enc tarE H conv (.parsed data) fs0 =
      (none,
       fsWrite ((build.name ++ (".ova")) ++ (".sha256"))
         (.text (H (tarE (ovaMembers enc H build f1 out1 cv))))
         (fsWrite (build.name ++ (".ova"))
           (.tar (ovaMembers enc H build f1 out1 cv))
           (fsWrite (build.name ++ (".ova")) (.bytes [])
             (fsWrite (build.name ++ (".mf"))
               (.text (mfText enc H build f1 out1 cv))
               (fsWrite (build.name ++ (".mf")) (.text (""))
                 (fsWrite (build.name ++ (".ovf"))
                   (.text (ovfText build f1 out1 cv))
                   (fsWrite (build.name ++ (".ovf")) (.text (""))
                     (fsWrite (destName f2.name) (.bytes out2)
                       (fsWrite (destName f1.name) (.bytes out1)
                         fs0))))))))) := by
    simp only [runMain, hb, h9, hvf,
      stream_two enc tarE conv fs0 f1 f2 fc1 fc2 out1 out2 hd1 hd2 hin1 hin2
        hne12 hne2d1 hconv1 hconv2,
      buildOvfData_ok build _ _ _ _ _ _ _ _ _ _ _ h1 h2 h3 h4 h5 h6 h7 h8 h9
        h10,
      create_ovf, substitute_full, create_ova_manifest_text, sha256, tarAdds,
      create_ova, fsWrite, fsLookup, bytesOf, readAll_eq,
      hovf_mf, hovf_ova, hmf_ova, hd1_ovf, hd1_mf, hd1_ova, hd1_d2,
      ovfText, mfText, ovaMembers, if_true, if_false]
  have hd2_sha : ¬(destName f2.name =
      (build.name ++ (".ova")) ++ (".sha256")) :=
    dest_ne_cat f2.name hv2 (build.name ++ (".ova")) (".sha256")
      (by decide) (by decide)
  have hd2_ova : ¬(destName f2.name = build.name ++ (".ova")) :=
    dest_ne_cat f2.name hv2 build.name (".ova") (by decide) (by decide)
  have hd2_mf : ¬(destName f2.name = build.name ++ (".mf")) :=
    dest_ne_cat f2.name hv2 build.name (".mf") (by decide) (by decide)
  have hd2_ovf : ¬(destName f2.name = build.name ++ (".ovf")) :=
    dest_ne_cat f2.name hv2 build.name (".ovf") (by decide) (by decide)
  have hova_sha : ¬(build.name ++ (".ova") =
      (build.name ++ (".ova")) ++ (".sha256")) :=
    ne_append_right _ _ (by decide)
  refine ⟨?_, ?_, ?_⟩
  · rw [hrun]
  · rw [hrun]
    simp [fsWrite, fsLookup, hd2_sha, hd2_ova, hd2_mf, hd2_ovf]
  · refine ⟨enc (ovfText build f1 out1 cv),
      enc (mfText enc H build f1 out1 cv), out1, ?_⟩
    rw [hrun]
    simp [fsWrite, fsLookup, hova_sha, ovaMembers]

theorem all_disks_converted_first_packaged_witness :
    (runMain encW tarEW HW convW (.parsed dataTwoDisks) fs0TwoDisks).1 =
        none ∧
    fsLookup (runMain encW tarEW HW convW (.parsed dataTwoDisks)
        fs0TwoDisks).2 (destName (("disk2.vmdk"))) = some (.bytes [2]) ∧
    ∃ c1 c2 c3,
      fsLookup (runMain encW tarEW HW convW (.parsed dataTwoDisks)
          fs0TwoDisks).2 ((("ubuntu")) ++ (".ova")) =
        some (.tar [((("ubuntu")) ++ (".ovf"), c1),
                    ((("ubuntu")) ++ (".mf"), c2),
                    (destName (("disk1.vmdk")), c3)]) :=
  all_disks_converted_first_packaged encW tarEW HW convW dataTwoDisks
    ⟨("ubuntu"), ("art"), buildW.custom_data,
      [⟨("disk1.vmdk"), 5⟩, ⟨("disk2.vmdk"), 6⟩]⟩ []
    ⟨("disk1.vmdk"), 5⟩ ⟨("disk2.vmdk"), 6⟩ (.bytes [1]) (.bytes [2])
    [1] [2] cvW fs0TwoDisks rfl (by decide) (by decide) (by decide)
    (by decide) (by decide) (by decide) (by decide) rfl rfl rfl rfl rfl rfl
    rfl rfl rfl rfl rfl rfl
